import Mathlib

/-!
Shallow embedding of `desktop/scripts/generate-icon.py`, the single source file
of the `breadcrumb` repository: a script that procedurally draws a 1024x1024
RGBA placeholder icon (rounded-rectangle background, three glow-shaded
"breadcrumb" dots with highlights, connecting lines, chevrons, a translucent
"B" glyph) and saves it as a PNG to `../assets/icon.png` relative to the
directory of the script.

Modelling conventions:
- Python float arithmetic is IEEE-754 binary64.  The multi-step glow-alpha
  expression `40 * (1 - (glow_r - r) / 30)` is embedded with an explicit
  rounding model: `fl64` rounds an exact rational to the nearest binary64
  value (53-bit significand, ties to even; every value reached here lies well
  inside the normal range), and each arithmetic step is correctly rounded, as
  IEEE requires.  This matters: at `glow_r - r = 27` and `24` the float
  results are `3.999...` and `7.999...`, truncating to 3 and 7, not the 4 and
  8 of exact rational arithmetic.
- The single-rounding highlight expressions `int(r * 0.5)` and `int(r * 0.15)`
  are embedded over exact `ℚ`: for every radius the script reaches (70, 55,
  40) the float products (35.0, 10.5; 27.5, 8.25; 20.0, 6.0) are exactly
  representable in binary64, so the float and rational results coincide.
  Python `int()` (truncation toward zero) is embedded as `pyInt`.
- Filesystem paths are lists of components; `os.path.join(a, b, ...)` appends
  components and `os.path.dirname` drops the last.
- The PIL drawing collaborator is embedded as an inert list of drawing
  operations `Op`; the font collaborator as an environment `FontEnv` giving
  which font files load and the measured `textbbox((0,0), "B", font)` of each
  font.  The script itself is embedded as the event trace `scriptTrace`.
-/

namespace Breadcrumb

/-- RGBA color: four 8-bit channels, as in the PIL 4-tuples of the script. -/
structure Color where
  r : ℤ
  g : ℤ
  b : ℤ
  a : ℤ
deriving DecidableEq

/-- `SIZE = 1024` from the script. -/
def SIZE : ℤ := 1024

/-- `bg_color = (22, 22, 42, 255)`. -/
def bg_color : Color := ⟨22, 22, 42, 255⟩

/-- `accent = (99, 102, 241, 255)` (Indigo-500). -/
def accent : Color := ⟨99, 102, 241, 255⟩

/-- `accent_light = (165, 180, 252, 255)` (Indigo-300). -/
def accent_light : Color := ⟨165, 180, 252, 255⟩

/-- `line_color = (99, 102, 241, 100)`. -/
def line_color : Color := ⟨99, 102, 241, 100⟩

/-- `chevron_color = (99, 102, 241, 60)`. -/
def chevron_color : Color := ⟨99, 102, 241, 60⟩

/-- `b_color = (255, 255, 255, 35)`. -/
def b_color : Color := ⟨255, 255, 255, 35⟩

/-- The `dots` list of the script: `(x, y, radius)` triples. -/
def dots : List (ℤ × ℤ × ℤ) := [(300, 680, 70), (512, 512, 55), (700, 360, 40)]

/-- Python `int()` applied to an exact rational: truncation toward zero. -/
def pyInt (q : ℚ) : ℤ := if q < 0 then ⌈q⌉ else ⌊q⌋

/-- Python `range(a, b, -3)` for a descending step of 3: the values
`a, a - 3, a - 6, ...` strictly greater than `b`. -/
def rangeDown3 (a b : ℤ) : List ℤ :=
  (List.range (((a - b).toNat + 2) / 3)).map (fun i : ℕ => a - 3 * (i : ℤ))

/-- Round a rational to the nearest integer, ties to even: the rounding of a
53-bit significand. -/
def roundHalfEven (q : ℚ) : ℤ :=
  if q - ⌊q⌋ < 1/2 then ⌊q⌋
  else if 1/2 < q - ⌊q⌋ then ⌊q⌋ + 1
  else if 2 ∣ ⌊q⌋ then ⌊q⌋ else ⌊q⌋ + 1

/-- IEEE-754 binary64 rounding of an exact rational, round-to-nearest with
ties to even, for values in the normal range (the only range this script
reaches): the significand is normalized to `[2^52, 2^53)` at the exponent
`Int.log 2 |q| - 52` and rounded half-to-even. -/
def fl64 (q : ℚ) : ℚ :=
  if q = 0 then 0
  else
    (if q < 0 then -1 else 1) *
      (roundHalfEven (|q| / 2 ^ (Int.log 2 |q| - 52)) : ℚ) *
      2 ^ (Int.log 2 |q| - 52)

/-- `alpha = int(40 * (1 - (glow_r - r) / 30))` from the glow loop, with each
of the three float operations (the division, the subtraction, the
multiplication; the integer subtraction `glow_r - r` is exact) correctly
rounded to binary64 as IEEE arithmetic performs it. -/
def glowAlpha (r glow_r : ℤ) : ℤ :=
  pyInt (fl64 (40 * fl64 (1 - fl64 (((glow_r : ℚ) - (r : ℚ)) / 30))))

/-- `highlight_r = int(r * 0.5)`. -/
def highlight_r (r : ℤ) : ℤ := pyInt ((r : ℚ) * 0.5)

/-- `int(r * 0.15)`, the upward shift of the inner highlight ellipse. -/
def highlightOff (r : ℤ) : ℤ := pyInt ((r : ℚ) * 0.15)

/-- One drawing call against the canvas, mirroring the PIL primitives the
script uses.  Ellipses and rectangles carry their two corner points; `line`
carries the full point list exactly as passed to `draw.line`. -/
inductive Op where
  | roundedRectFill (x0 y0 x1 y1 radius : ℤ) (fill : Color)
  | roundedRectOutline (x0 y0 x1 y1 radius : ℤ) (outline : Color) (width : ℤ)
  | ellipse (x0 y0 x1 y1 : ℤ) (fill : Color)
  | line (pts : List (ℤ × ℤ)) (color : Color) (width : ℤ)
  | text (x y : ℤ) (s : String) (fill : Color)
deriving DecidableEq

/-- The two background calls: filled rounded rectangle (radius 200) and the
inset low-alpha outline (radius 196, width 2). -/
def backgroundOps : List Op :=
  [Op.roundedRectFill 40 40 (SIZE - 40) (SIZE - 40) 200 bg_color,
   Op.roundedRectOutline 44 44 (SIZE - 44) (SIZE - 44) (200 - 4) ⟨255, 255, 255, 20⟩ 2]

/-- The glow loop of one dot: `for glow_r in range(r + 30, r, -3)` drawing an
ellipse of corner points `(x ± glow_r, y ± glow_r)` with fill
`(99, 102, 241, alpha)`. -/
def glowOps (x y r : ℤ) : List Op :=
  (rangeDown3 (r + 30) r).map (fun glow_r =>
    Op.ellipse (x - glow_r) (y - glow_r) (x + glow_r) (y + glow_r)
      ⟨99, 102, 241, glowAlpha r glow_r⟩)

/-- The solid core circle of one dot: fill `accent`. -/
def coreOp (x y r : ℤ) : Op :=
  Op.ellipse (x - r) (y - r) (x + r) (y + r) accent

/-- The inner highlight ellipse of one dot: radius `int(r * 0.5)`, shifted up
by `int(r * 0.15)`, fill `accent_light`. -/
def highlightOp (x y r : ℤ) : Op :=
  Op.ellipse (x - highlight_r r) (y - highlight_r r - highlightOff r)
    (x + highlight_r r) (y + highlight_r r - highlightOff r) accent_light

/-- The body of the `for x, y, r in dots` loop: glow, then core, then
highlight. -/
def dotOps (x y r : ℤ) : List Op :=
  glowOps x y r ++ [coreOp x y r, highlightOp x y r]

/-- The two connecting trail lines between successive dot centers. -/
def lineOps : List Op :=
  [Op.line [(300, 680), (512, 512)] line_color 8,
   Op.line [(512, 512), (700, 360)] line_color 6]

/-- The chevron loop: `for offset in [0, 35]` with `cx = 770 + offset`,
`cy = 305 - offset // 2`. -/
def chevronOps : List Op :=
  ([0, 35] : List ℤ).map (fun offset =>
    Op.line [(770 + offset, (305 - offset / 2) - 15),
             (770 + offset + 15, 305 - offset / 2),
             (770 + offset, (305 - offset / 2) + 15)] chevron_color 4)

/-- A font handle: a truetype font loaded from a path at a pixel size, or the
PIL built-in default font (`ImageFont.load_default()`). -/
inductive Font where
  | truetype (path : String) (size : ℤ)
  | dflt
deriving DecidableEq

/-- The measured bounding box returned by `draw.textbbox((0, 0), "B", font)`:
`(left, top, right, bottom)`. -/
structure BBox where
  x0 : ℤ
  y0 : ℤ
  x1 : ℤ
  y1 : ℤ
deriving DecidableEq

/-- The host environment the script depends on: which truetype font files can
be opened, and the glyph metrics of the character "B" under each font. -/
structure FontEnv where
  available : String → Bool
  bboxOf : Font → BBox

def sfPath : String := "/System/Library/Fonts/SFCompact.ttf"

def helvPath : String := "/System/Library/Fonts/Helvetica.ttc"

/-- The try/except fallback chain: `SFCompact.ttf` at 220, else
`Helvetica.ttc` at 220, else the built-in default font.  Total: it always
returns a font. -/
def loadFont (env : FontEnv) : Font :=
  if env.available sfPath then Font.truetype sfPath 220
  else if env.available helvPath then Font.truetype helvPath 220
  else Font.dflt

/-- `bbox = draw.textbbox((0, 0), "B", font=font)` under the resolved font. -/
def bboxB (env : FontEnv) : BBox := env.bboxOf (loadFont env)

/-- The anchor passed to `draw.text`:
`(SIZE - bw - 160, SIZE - bh - 140)` where `bw, bh` are the measured bounding
box width and height. -/
def textPos (env : FontEnv) : ℤ × ℤ :=
  ((SIZE - ((bboxB env).x1 - (bboxB env).x0)) - 160,
   (SIZE - ((bboxB env).y1 - (bboxB env).y0)) - 140)

/-- The `draw.text(...)` call for the "B" overlay. -/
def textOp (env : FontEnv) : Op :=
  Op.text (textPos env).1 (textPos env).2 "B" b_color

/-- Every drawing call of the run, in program order. -/
def renderOps (env : FontEnv) : List Op :=
  backgroundOps
    ++ dots.flatMap (fun t => dotOps t.1 t.2.1 t.2.2)
    ++ lineOps ++ chevronOps ++ [textOp env]

/-- The in-memory canvas: mode and pixel dimensions fixed at allocation
(`Image.new` with mode RGBA, size `(SIZE, SIZE)`, transparent fill; no drawing call resizes or
re-modes it), together with the drawing calls composited into it. -/
structure Image where
  mode : String
  width : ℤ
  height : ℤ
  ops : List Op
deriving DecidableEq

/-- An externally visible step of the script. -/
inductive Event where
  | newImage (mode : String) (w h : ℤ)
  | draw (op : Op)
  | makedirs (path : List String)
  | save (path : List String) (format : String) (img : Image)
  | printLine (s : String)
deriving DecidableEq

/-- `OUT`, built by `os.path.join` from the directory of the script followed by
the components `..`, `assets`, `icon.png`. -/
def OUT (scriptDir : List String) : List String :=
  scriptDir ++ ["..", "assets", "icon.png"]

/-- `os.path.dirname`: drop the last path component. -/
def dirname (p : List String) : List String := p.dropLast

/-- The full run of the script as an event trace: allocate the canvas, perform
every drawing call, `os.makedirs(os.path.dirname(OUT), exist_ok=True)`, the
single save of the image to `OUT` in PNG format, and the confirmation print. -/
def scriptTrace (scriptDir : List String) (env : FontEnv) : List Event :=
  [Event.newImage "RGBA" SIZE SIZE]
    ++ (renderOps env).map Event.draw
    ++ [Event.makedirs (dirname (OUT scriptDir)),
        Event.save (OUT scriptDir) "PNG"
          { mode := "RGBA", width := SIZE, height := SIZE, ops := renderOps env },
        Event.printLine ("Icon saved to " ++ String.intercalate "/" (OUT scriptDir)
          ++ " (1024x1024)")]

/-- Recognizes `save` events in a trace. -/
def isSave : Event → Bool
  | Event.save _ _ _ => true
  | _ => false

/-- Recognizes `makedirs` events in a trace. -/
def isMakedirs : Event → Bool
  | Event.makedirs _ => true
  | _ => false

/-- Recognizes filesystem-touching events (directory creation or file write). -/
def isFs (e : Event) : Bool := isSave e || isMakedirs e

/-- Recognizes the ellipse calls filled with the fully opaque `accent` color:
exactly the solid dot cores (glow ellipses use alpha at most 36 and highlights
use `accent_light`). -/
def isCoreEllipse : Op → Bool
  | Op.ellipse _ _ _ _ c => c == accent
  | _ => false

/-! ### Arithmetic bridge lemmas

The float expressions of the script, embedded over `ℚ`, evaluate to integer
divisions; these lemmas let the later theorems compute with pure `ℤ`
arithmetic. -/

theorem floor_eq_of_bounds (q : ℚ) (f : ℤ) (h1 : (f : ℚ) ≤ q) (h2 : q < f + 1) :
    ⌊q⌋ = f :=
  Int.floor_eq_iff.mpr ⟨h1, h2⟩

theorem pyInt_of_nonneg (q : ℚ) (h : 0 ≤ q) : pyInt q = ⌊q⌋ := by
  unfold pyInt
  rw [if_neg (not_lt.mpr h)]

theorem roundHalfEven_eq_down (q : ℚ) (f : ℤ) (hf : ⌊q⌋ = f) (h : q - f < 1/2) :
    roundHalfEven q = f := by
  unfold roundHalfEven
  rw [hf, if_pos h]

theorem roundHalfEven_eq_up (q : ℚ) (f : ℤ) (hf : ⌊q⌋ = f) (h : 1/2 < q - f) :
    roundHalfEven q = f + 1 := by
  unfold roundHalfEven
  rw [hf, if_neg (by linarith), if_pos h]

theorem roundHalfEven_eq_tie_even (q : ℚ) (f : ℤ) (hf : ⌊q⌋ = f) (h : q - f = 1/2)
    (he : 2 ∣ f) : roundHalfEven q = f := by
  unfold roundHalfEven
  rw [hf, if_neg (by simp [h]), if_neg (by simp [h]), if_pos he]

theorem roundHalfEven_eq_tie_odd (q : ℚ) (f : ℤ) (hf : ⌊q⌋ = f) (h : q - f = 1/2)
    (he : ¬ 2 ∣ f) : roundHalfEven q = f + 1 := by
  unfold roundHalfEven
  rw [hf, if_neg (by simp [h]), if_neg (by simp [h]), if_neg he]

theorem int_log_eq (q : ℚ) (L : ℤ) (hq : 0 < q)
    (h1 : (2 : ℚ) ^ L ≤ q) (h2 : q < (2 : ℚ) ^ (L + 1)) :
    Int.log 2 q = L := by
  have hcast : ((2 : ℕ) : ℚ) = (2 : ℚ) := by norm_num
  have ha : L ≤ Int.log 2 q :=
    (Int.zpow_le_iff_le_log (by norm_num) hq).mp (by rw [hcast]; exact h1)
  have hb : Int.log 2 q < L + 1 :=
    (Int.lt_zpow_iff_log_lt (by norm_num) hq).mp (by rw [hcast]; exact h2)
  omega

theorem fl64_zero : fl64 0 = 0 := by
  unfold fl64
  simp

/-- Evaluation rule for `fl64` at a positive rational whose normalized
significand bits are known: if `q * 2 ^ e` lies in `[2^52, 2^53)` and rounds
half-to-even to `m`, then `fl64 q = m / 2 ^ e`. -/
theorem fl64_eval_pos (q : ℚ) (e : ℕ) (m : ℤ) (hq : 0 < q)
    (h1 : (2 : ℚ) ^ 52 ≤ q * 2 ^ e) (h2 : q * 2 ^ e < 2 ^ 53)
    (hm : roundHalfEven (q * 2 ^ e) = m) :
    fl64 q = m / 2 ^ e := by
  have hpe : (0 : ℚ) < (2 : ℚ) ^ e := by positivity
  have h52 : (2 : ℚ) ^ ((52 : ℤ) - (e : ℤ)) = 2 ^ (52 : ℕ) / 2 ^ e := by
    rw [zpow_sub₀ (by norm_num : (2 : ℚ) ≠ 0), zpow_natCast]
    norm_num
  have h53 : (2 : ℚ) ^ ((52 : ℤ) - (e : ℤ) + 1) = 2 ^ (53 : ℕ) / 2 ^ e := by
    rw [show (52 : ℤ) - (e : ℤ) + 1 = 53 - (e : ℤ) from by ring,
      zpow_sub₀ (by norm_num : (2 : ℚ) ≠ 0), zpow_natCast]
    norm_num
  have hlog : Int.log 2 q = 52 - (e : ℤ) := by
    apply int_log_eq q (52 - (e : ℤ)) hq
    · rw [h52, div_le_iff₀ hpe]
      exact h1
    · rw [h53, lt_div_iff₀ hpe]
      exact h2
  unfold fl64
  rw [if_neg (ne_of_gt hq), if_neg (not_lt.mpr hq.le), abs_of_pos hq, hlog]
  rw [show (52 : ℤ) - (e : ℤ) - 52 = -(e : ℤ) from by ring]
  rw [zpow_neg, zpow_natCast, div_inv_eq_mul, hm, one_mul, ← div_eq_mul_inv]

theorem alpha_of_sub_30 (r g : ℤ) (h : g - r = 30) : glowAlpha r g = 0 := by
  have hd : (g : ℚ) - (r : ℚ) = 30 := by exact_mod_cast h
  have hm1 : roundHalfEven (((30 : ℚ) / 30) * 2 ^ 52) = 4503599627370496 := by
    apply roundHalfEven_eq_down
    · apply floor_eq_of_bounds <;> norm_num
    · norm_num
  have e1 : fl64 ((30 : ℚ) / 30) = 1 := by
    rw [fl64_eval_pos _ 52 _ (by norm_num) (by norm_num) (by norm_num) hm1]
    norm_num
  unfold glowAlpha
  rw [hd, e1, show (1 : ℚ) - 1 = 0 from by norm_num, fl64_zero,
    show (40 : ℚ) * 0 = 0 from by norm_num, fl64_zero,
    pyInt_of_nonneg 0 (by norm_num)]
  exact Int.floor_zero

theorem alpha_of_sub_27 (r g : ℤ) (h : g - r = 27) : glowAlpha r g = 3 := by
  have hd : (g : ℚ) - (r : ℚ) = 27 := by exact_mod_cast h
  have hm1 : roundHalfEven (((27 : ℚ) / 30) * 2 ^ 53) = 8106479329266892 + 1 := by
    apply roundHalfEven_eq_up
    · apply floor_eq_of_bounds <;> norm_num
    · norm_num
  have e1 : fl64 ((27 : ℚ) / 30) = 8106479329266893 / 2 ^ 53 := by
    rw [fl64_eval_pos _ 53 _ (by norm_num) (by norm_num) (by norm_num) hm1]
    norm_num
  have hm2 : roundHalfEven ((1 - (8106479329266893 : ℚ) / 2 ^ 53) * 2 ^ 56) = 7205759403792792 := by
    apply roundHalfEven_eq_down
    · apply floor_eq_of_bounds <;> norm_num
    · norm_num
  have e2 : fl64 (1 - (8106479329266893 : ℚ) / 2 ^ 53) = 7205759403792792 / 2 ^ 56 := by
    rw [fl64_eval_pos _ 56 _ (by norm_num) (by norm_num) (by norm_num) hm2]
    norm_num
  have hm3 : roundHalfEven (((40 : ℚ) * (7205759403792792 / 2 ^ 56)) * 2 ^ 51) = 9007199254740990 := by
    apply roundHalfEven_eq_down
    · apply floor_eq_of_bounds <;> norm_num
    · norm_num
  have e3 : fl64 ((40 : ℚ) * (7205759403792792 / 2 ^ 56)) = 9007199254740990 / 2 ^ 51 := by
    rw [fl64_eval_pos _ 51 _ (by norm_num) (by norm_num) (by norm_num) hm3]
    norm_num
  unfold glowAlpha
  rw [hd, e1, e2, e3]
  rw [pyInt_of_nonneg ((9007199254740990 : ℚ) / 2 ^ 51) (by norm_num),
    floor_eq_of_bounds ((9007199254740990 : ℚ) / 2 ^ 51) 3 (by norm_num) (by norm_num)]

theorem alpha_of_sub_24 (r g : ℤ) (h : g - r = 24) : glowAlpha r g = 7 := by
  have hd : (g : ℚ) - (r : ℚ) = 24 := by exact_mod_cast h
  have hm1 : roundHalfEven (((24 : ℚ) / 30) * 2 ^ 53) = 7205759403792793 + 1 := by
    apply roundHalfEven_eq_up
    · apply floor_eq_of_bounds <;> norm_num
    · norm_num
  have e1 : fl64 ((24 : ℚ) / 30) = 7205759403792794 / 2 ^ 53 := by
    rw [fl64_eval_pos _ 53 _ (by norm_num) (by norm_num) (by norm_num) hm1]
    norm_num
  have hm2 : roundHalfEven ((1 - (7205759403792794 : ℚ) / 2 ^ 53) * 2 ^ 55) = 7205759403792792 := by
    apply roundHalfEven_eq_down
    · apply floor_eq_of_bounds <;> norm_num
    · norm_num
  have e2 : fl64 (1 - (7205759403792794 : ℚ) / 2 ^ 53) = 7205759403792792 / 2 ^ 55 := by
    rw [fl64_eval_pos _ 55 _ (by norm_num) (by norm_num) (by norm_num) hm2]
    norm_num
  have hm3 : roundHalfEven (((40 : ℚ) * (7205759403792792 / 2 ^ 55)) * 2 ^ 50) = 9007199254740990 := by
    apply roundHalfEven_eq_down
    · apply floor_eq_of_bounds <;> norm_num
    · norm_num
  have e3 : fl64 ((40 : ℚ) * (7205759403792792 / 2 ^ 55)) = 9007199254740990 / 2 ^ 50 := by
    rw [fl64_eval_pos _ 50 _ (by norm_num) (by norm_num) (by norm_num) hm3]
    norm_num
  unfold glowAlpha
  rw [hd, e1, e2, e3]
  rw [pyInt_of_nonneg ((9007199254740990 : ℚ) / 2 ^ 50) (by norm_num),
    floor_eq_of_bounds ((9007199254740990 : ℚ) / 2 ^ 50) 7 (by norm_num) (by norm_num)]

theorem alpha_of_sub_21 (r g : ℤ) (h : g - r = 21) : glowAlpha r g = 12 := by
  have hd : (g : ℚ) - (r : ℚ) = 21 := by exact_mod_cast h
  have hm1 : roundHalfEven (((21 : ℚ) / 30) * 2 ^ 53) = 6305039478318694 := by
    apply roundHalfEven_eq_down
    · apply floor_eq_of_bounds <;> norm_num
    · norm_num
  have e1 : fl64 ((21 : ℚ) / 30) = 6305039478318694 / 2 ^ 53 := by
    rw [fl64_eval_pos _ 53 _ (by norm_num) (by norm_num) (by norm_num) hm1]
    norm_num
  have hm2 : roundHalfEven ((1 - (6305039478318694 : ℚ) / 2 ^ 53) * 2 ^ 54) = 5404319552844596 := by
    apply roundHalfEven_eq_down
    · apply floor_eq_of_bounds <;> norm_num
    · norm_num
  have e2 : fl64 (1 - (6305039478318694 : ℚ) / 2 ^ 53) = 5404319552844596 / 2 ^ 54 := by
    rw [fl64_eval_pos _ 54 _ (by norm_num) (by norm_num) (by norm_num) hm2]
    norm_num
  have hm3 : roundHalfEven (((40 : ℚ) * (5404319552844596 / 2 ^ 54)) * 2 ^ 49) = 6755399441055745 := by
    apply roundHalfEven_eq_down
    · apply floor_eq_of_bounds <;> norm_num
    · norm_num
  have e3 : fl64 ((40 : ℚ) * (5404319552844596 / 2 ^ 54)) = 6755399441055745 / 2 ^ 49 := by
    rw [fl64_eval_pos _ 49 _ (by norm_num) (by norm_num) (by norm_num) hm3]
    norm_num
  unfold glowAlpha
  rw [hd, e1, e2, e3]
  rw [pyInt_of_nonneg ((6755399441055745 : ℚ) / 2 ^ 49) (by norm_num),
    floor_eq_of_bounds ((6755399441055745 : ℚ) / 2 ^ 49) 12 (by norm_num) (by norm_num)]

theorem alpha_of_sub_18 (r g : ℤ) (h : g - r = 18) : glowAlpha r g = 16 := by
  have hd : (g : ℚ) - (r : ℚ) = 18 := by exact_mod_cast h
  have hm1 : roundHalfEven (((18 : ℚ) / 30) * 2 ^ 53) = 5404319552844595 := by
    apply roundHalfEven_eq_down
    · apply floor_eq_of_bounds <;> norm_num
    · norm_num
  have e1 : fl64 ((18 : ℚ) / 30) = 5404319552844595 / 2 ^ 53 := by
    rw [fl64_eval_pos _ 53 _ (by norm_num) (by norm_num) (by norm_num) hm1]
    norm_num
  have hm2 : roundHalfEven ((1 - (5404319552844595 : ℚ) / 2 ^ 53) * 2 ^ 54) = 7205759403792794 := by
    apply roundHalfEven_eq_down
    · apply floor_eq_of_bounds <;> norm_num
    · norm_num
  have e2 : fl64 (1 - (5404319552844595 : ℚ) / 2 ^ 53) = 7205759403792794 / 2 ^ 54 := by
    rw [fl64_eval_pos _ 54 _ (by norm_num) (by norm_num) (by norm_num) hm2]
    norm_num
  have hm3 : roundHalfEven (((40 : ℚ) * (7205759403792794 / 2 ^ 54)) * 2 ^ 48) = 4503599627370496 := by
    apply roundHalfEven_eq_down
    · apply floor_eq_of_bounds <;> norm_num
    · norm_num
  have e3 : fl64 ((40 : ℚ) * (7205759403792794 / 2 ^ 54)) = 4503599627370496 / 2 ^ 48 := by
    rw [fl64_eval_pos _ 48 _ (by norm_num) (by norm_num) (by norm_num) hm3]
    norm_num
  unfold glowAlpha
  rw [hd, e1, e2, e3]
  rw [pyInt_of_nonneg ((4503599627370496 : ℚ) / 2 ^ 48) (by norm_num),
    floor_eq_of_bounds ((4503599627370496 : ℚ) / 2 ^ 48) 16 (by norm_num) (by norm_num)]

theorem alpha_of_sub_15 (r g : ℤ) (h : g - r = 15) : glowAlpha r g = 20 := by
  have hd : (g : ℚ) - (r : ℚ) = 15 := by exact_mod_cast h
  have hm1 : roundHalfEven (((15 : ℚ) / 30) * 2 ^ 53) = 4503599627370496 := by
    apply roundHalfEven_eq_down
    · apply floor_eq_of_bounds <;> norm_num
    · norm_num
  have e1 : fl64 ((15 : ℚ) / 30) = 4503599627370496 / 2 ^ 53 := by
    rw [fl64_eval_pos _ 53 _ (by norm_num) (by norm_num) (by norm_num) hm1]
    norm_num
  have hm2 : roundHalfEven ((1 - (4503599627370496 : ℚ) / 2 ^ 53) * 2 ^ 53) = 4503599627370496 := by
    apply roundHalfEven_eq_down
    · apply floor_eq_of_bounds <;> norm_num
    · norm_num
  have e2 : fl64 (1 - (4503599627370496 : ℚ) / 2 ^ 53) = 4503599627370496 / 2 ^ 53 := by
    rw [fl64_eval_pos _ 53 _ (by norm_num) (by norm_num) (by norm_num) hm2]
    norm_num
  have hm3 : roundHalfEven (((40 : ℚ) * (4503599627370496 / 2 ^ 53)) * 2 ^ 48) = 5629499534213120 := by
    apply roundHalfEven_eq_down
    · apply floor_eq_of_bounds <;> norm_num
    · norm_num
  have e3 : fl64 ((40 : ℚ) * (4503599627370496 / 2 ^ 53)) = 5629499534213120 / 2 ^ 48 := by
    rw [fl64_eval_pos _ 48 _ (by norm_num) (by norm_num) (by norm_num) hm3]
    norm_num
  unfold glowAlpha
  rw [hd, e1, e2, e3]
  rw [pyInt_of_nonneg ((5629499534213120 : ℚ) / 2 ^ 48) (by norm_num),
    floor_eq_of_bounds ((5629499534213120 : ℚ) / 2 ^ 48) 20 (by norm_num) (by norm_num)]

theorem alpha_of_sub_12 (r g : ℤ) (h : g - r = 12) : glowAlpha r g = 24 := by
  have hd : (g : ℚ) - (r : ℚ) = 12 := by exact_mod_cast h
  have hm1 : roundHalfEven (((12 : ℚ) / 30) * 2 ^ 54) = 7205759403792793 + 1 := by
    apply roundHalfEven_eq_up
    · apply floor_eq_of_bounds <;> norm_num
    · norm_num
  have e1 : fl64 ((12 : ℚ) / 30) = 7205759403792794 / 2 ^ 54 := by
    rw [fl64_eval_pos _ 54 _ (by norm_num) (by norm_num) (by norm_num) hm1]
    norm_num
  have hm2 : roundHalfEven ((1 - (7205759403792794 : ℚ) / 2 ^ 54) * 2 ^ 53) = 5404319552844595 := by
    apply roundHalfEven_eq_down
    · apply floor_eq_of_bounds <;> norm_num
    · norm_num
  have e2 : fl64 (1 - (7205759403792794 : ℚ) / 2 ^ 54) = 5404319552844595 / 2 ^ 53 := by
    rw [fl64_eval_pos _ 53 _ (by norm_num) (by norm_num) (by norm_num) hm2]
    norm_num
  have hm3 : roundHalfEven (((40 : ℚ) * (5404319552844595 / 2 ^ 53)) * 2 ^ 48) = 6755399441055743 + 1 := by
    apply roundHalfEven_eq_up
    · apply floor_eq_of_bounds <;> norm_num
    · norm_num
  have e3 : fl64 ((40 : ℚ) * (5404319552844595 / 2 ^ 53)) = 6755399441055744 / 2 ^ 48 := by
    rw [fl64_eval_pos _ 48 _ (by norm_num) (by norm_num) (by norm_num) hm3]
    norm_num
  unfold glowAlpha
  rw [hd, e1, e2, e3]
  rw [pyInt_of_nonneg ((6755399441055744 : ℚ) / 2 ^ 48) (by norm_num),
    floor_eq_of_bounds ((6755399441055744 : ℚ) / 2 ^ 48) 24 (by norm_num) (by norm_num)]

theorem alpha_of_sub_9 (r g : ℤ) (h : g - r = 9) : glowAlpha r g = 28 := by
  have hd : (g : ℚ) - (r : ℚ) = 9 := by exact_mod_cast h
  have hm1 : roundHalfEven (((9 : ℚ) / 30) * 2 ^ 54) = 5404319552844595 := by
    apply roundHalfEven_eq_down
    · apply floor_eq_of_bounds <;> norm_num
    · norm_num
  have e1 : fl64 ((9 : ℚ) / 30) = 5404319552844595 / 2 ^ 54 := by
    rw [fl64_eval_pos _ 54 _ (by norm_num) (by norm_num) (by norm_num) hm1]
    norm_num
  have hm2 : roundHalfEven ((1 - (5404319552844595 : ℚ) / 2 ^ 54) * 2 ^ 53) = 6305039478318694 := by
    apply roundHalfEven_eq_tie_even
    · apply floor_eq_of_bounds <;> norm_num
    · norm_num
    · norm_num
  have e2 : fl64 (1 - (5404319552844595 : ℚ) / 2 ^ 54) = 6305039478318694 / 2 ^ 53 := by
    rw [fl64_eval_pos _ 53 _ (by norm_num) (by norm_num) (by norm_num) hm2]
    norm_num
  have hm3 : roundHalfEven (((40 : ℚ) * (6305039478318694 / 2 ^ 53)) * 2 ^ 48) = 7881299347898367 + 1 := by
    apply roundHalfEven_eq_tie_odd
    · apply floor_eq_of_bounds <;> norm_num
    · norm_num
    · norm_num
  have e3 : fl64 ((40 : ℚ) * (6305039478318694 / 2 ^ 53)) = 7881299347898368 / 2 ^ 48 := by
    rw [fl64_eval_pos _ 48 _ (by norm_num) (by norm_num) (by norm_num) hm3]
    norm_num
  unfold glowAlpha
  rw [hd, e1, e2, e3]
  rw [pyInt_of_nonneg ((7881299347898368 : ℚ) / 2 ^ 48) (by norm_num),
    floor_eq_of_bounds ((7881299347898368 : ℚ) / 2 ^ 48) 28 (by norm_num) (by norm_num)]

theorem alpha_of_sub_6 (r g : ℤ) (h : g - r = 6) : glowAlpha r g = 32 := by
  have hd : (g : ℚ) - (r : ℚ) = 6 := by exact_mod_cast h
  have hm1 : roundHalfEven (((6 : ℚ) / 30) * 2 ^ 55) = 7205759403792793 + 1 := by
    apply roundHalfEven_eq_up
    · apply floor_eq_of_bounds <;> norm_num
    · norm_num
  have e1 : fl64 ((6 : ℚ) / 30) = 7205759403792794 / 2 ^ 55 := by
    rw [fl64_eval_pos _ 55 _ (by norm_num) (by norm_num) (by norm_num) hm1]
    norm_num
  have hm2 : roundHalfEven ((1 - (7205759403792794 : ℚ) / 2 ^ 55) * 2 ^ 53) = 7205759403792793 + 1 := by
    apply roundHalfEven_eq_tie_odd
    · apply floor_eq_of_bounds <;> norm_num
    · norm_num
    · norm_num
  have e2 : fl64 (1 - (7205759403792794 : ℚ) / 2 ^ 55) = 7205759403792794 / 2 ^ 53 := by
    rw [fl64_eval_pos _ 53 _ (by norm_num) (by norm_num) (by norm_num) hm2]
    norm_num
  have hm3 : roundHalfEven (((40 : ℚ) * (7205759403792794 / 2 ^ 53)) * 2 ^ 47) = 4503599627370496 := by
    apply roundHalfEven_eq_down
    · apply floor_eq_of_bounds <;> norm_num
    · norm_num
  have e3 : fl64 ((40 : ℚ) * (7205759403792794 / 2 ^ 53)) = 4503599627370496 / 2 ^ 47 := by
    rw [fl64_eval_pos _ 47 _ (by norm_num) (by norm_num) (by norm_num) hm3]
    norm_num
  unfold glowAlpha
  rw [hd, e1, e2, e3]
  rw [pyInt_of_nonneg ((4503599627370496 : ℚ) / 2 ^ 47) (by norm_num),
    floor_eq_of_bounds ((4503599627370496 : ℚ) / 2 ^ 47) 32 (by norm_num) (by norm_num)]

theorem alpha_of_sub_3 (r g : ℤ) (h : g - r = 3) : glowAlpha r g = 36 := by
  have hd : (g : ℚ) - (r : ℚ) = 3 := by exact_mod_cast h
  have hm1 : roundHalfEven (((3 : ℚ) / 30) * 2 ^ 56) = 7205759403792793 + 1 := by
    apply roundHalfEven_eq_up
    · apply floor_eq_of_bounds <;> norm_num
    · norm_num
  have e1 : fl64 ((3 : ℚ) / 30) = 7205759403792794 / 2 ^ 56 := by
    rw [fl64_eval_pos _ 56 _ (by norm_num) (by norm_num) (by norm_num) hm1]
    norm_num
  have hm2 : roundHalfEven ((1 - (7205759403792794 : ℚ) / 2 ^ 56) * 2 ^ 53) = 8106479329266892 + 1 := by
    apply roundHalfEven_eq_up
    · apply floor_eq_of_bounds <;> norm_num
    · norm_num
  have e2 : fl64 (1 - (7205759403792794 : ℚ) / 2 ^ 56) = 8106479329266893 / 2 ^ 53 := by
    rw [fl64_eval_pos _ 53 _ (by norm_num) (by norm_num) (by norm_num) hm2]
    norm_num
  have hm3 : roundHalfEven (((40 : ℚ) * (8106479329266893 / 2 ^ 53)) * 2 ^ 47) = 5066549580791808 := by
    apply roundHalfEven_eq_down
    · apply floor_eq_of_bounds <;> norm_num
    · norm_num
  have e3 : fl64 ((40 : ℚ) * (8106479329266893 / 2 ^ 53)) = 5066549580791808 / 2 ^ 47 := by
    rw [fl64_eval_pos _ 47 _ (by norm_num) (by norm_num) (by norm_num) hm3]
    norm_num
  unfold glowAlpha
  rw [hd, e1, e2, e3]
  rw [pyInt_of_nonneg ((5066549580791808 : ℚ) / 2 ^ 47) (by norm_num),
    floor_eq_of_bounds ((5066549580791808 : ℚ) / 2 ^ 47) 36 (by norm_num) (by norm_num)]

/-- The ten computed glow alphas, tabulated as a function of the distance
`d = glow_r - r` from the core radius: the exact-linear value `40 - 4 * (d/3)`
except at `d = 24` and `d = 27`, where binary64 rounding loses one. -/
def alphaTbl (d : ℤ) : ℤ :=
  40 - 4 * (d / 3) - (if d = 24 ∨ d = 27 then 1 else 0)

theorem rangeDown3_structure (r g : ℤ) (h : g ∈ rangeDown3 (r + 30) r) :
    ∃ i : ℕ, i < 10 ∧ g = r + 30 - 3 * (i : ℤ) := by
  unfold rangeDown3 at h
  obtain ⟨i, hi, rfl⟩ := List.mem_map.mp h
  rw [List.mem_range] at hi
  exact ⟨i, by omega, rfl⟩

theorem glowAlpha_mem (r g : ℤ) (h : g ∈ rangeDown3 (r + 30) r) :
    glowAlpha r g = alphaTbl (g - r) := by
  obtain ⟨i, hi, rfl⟩ := rangeDown3_structure r g h
  rw [show r + 30 - 3 * (i : ℤ) - r = 30 - 3 * (i : ℤ) from by ring]
  interval_cases i
  · rw [alpha_of_sub_30 r (r + 30 - 3 * ((0 : ℕ) : ℤ)) (by push_cast; ring)]
    decide
  · rw [alpha_of_sub_27 r (r + 30 - 3 * ((1 : ℕ) : ℤ)) (by push_cast; ring)]
    decide
  · rw [alpha_of_sub_24 r (r + 30 - 3 * ((2 : ℕ) : ℤ)) (by push_cast; ring)]
    decide
  · rw [alpha_of_sub_21 r (r + 30 - 3 * ((3 : ℕ) : ℤ)) (by push_cast; ring)]
    decide
  · rw [alpha_of_sub_18 r (r + 30 - 3 * ((4 : ℕ) : ℤ)) (by push_cast; ring)]
    decide
  · rw [alpha_of_sub_15 r (r + 30 - 3 * ((5 : ℕ) : ℤ)) (by push_cast; ring)]
    decide
  · rw [alpha_of_sub_12 r (r + 30 - 3 * ((6 : ℕ) : ℤ)) (by push_cast; ring)]
    decide
  · rw [alpha_of_sub_9 r (r + 30 - 3 * ((7 : ℕ) : ℤ)) (by push_cast; ring)]
    decide
  · rw [alpha_of_sub_6 r (r + 30 - 3 * ((8 : ℕ) : ℤ)) (by push_cast; ring)]
    decide
  · rw [alpha_of_sub_3 r (r + 30 - 3 * ((9 : ℕ) : ℤ)) (by push_cast; ring)]
    decide

theorem highlight_r_eq (r : ℤ) (h : 0 ≤ r) : highlight_r r = r / 2 := by
  have hq : (r : ℚ) * 0.5 = ((r : ℤ) : ℚ) / ((2 : ℕ) : ℚ) := by
    push_cast
    ring_nf
  have hpos : ¬ ((r : ℚ) * 0.5 < 0) := by
    rw [hq]
    refine not_lt.mpr (div_nonneg ?_ (by norm_num))
    exact_mod_cast h
  unfold highlight_r pyInt
  rw [if_neg hpos, hq, Rat.floor_intCast_div_natCast]
  norm_num

theorem highlightOff_eq (r : ℤ) (h : 0 ≤ r) : highlightOff r = 3 * r / 20 := by
  have hq : (r : ℚ) * 0.15 = ((3 * r : ℤ) : ℚ) / ((20 : ℕ) : ℚ) := by
    push_cast
    ring_nf
  have hpos : ¬ ((r : ℚ) * 0.15 < 0) := by
    rw [hq]
    refine not_lt.mpr (div_nonneg ?_ (by norm_num))
    have : (0 : ℤ) ≤ 3 * r := by omega
    exact_mod_cast this
  unfold highlightOff pyInt
  rw [if_neg hpos, hq, Rat.floor_intCast_div_natCast]
  norm_num

/-- Membership bounds for the descending range: every element of
`range(a, b, -3)` is at most `a`, and (when the range is nonempty because
`b < a`) strictly greater than `b`. -/
theorem rangeDown3_bounds (a b g : ℤ) (h : g ∈ rangeDown3 a b) :
    g ≤ a ∧ (b < a → b < g) := by
  unfold rangeDown3 at h
  obtain ⟨i, hi, rfl⟩ := List.mem_map.mp h
  rw [List.mem_range] at hi
  omega

/-! ### Trace helper lemmas -/

theorem filter_isSave_map_draw (l : List Op) :
    (l.map Event.draw).filter isSave = [] := by
  induction l with
  | nil => rfl
  | cons a t ih => simp [isSave, ih]

theorem filter_isMakedirs_map_draw (l : List Op) :
    (l.map Event.draw).filter isMakedirs = [] := by
  induction l with
  | nil => rfl
  | cons a t ih => simp [isMakedirs, ih]

theorem isFs_map_draw (l : List Op) :
    ∀ e ∈ l.map Event.draw, isFs e = false := by
  intro e he
  obtain ⟨op, _, rfl⟩ := List.mem_map.mp he
  rfl

/-- The script performs exactly one `save`, of the fully composed RGBA
1024x1024 canvas, as PNG, at `OUT`. -/
theorem filter_isSave_trace (d : List String) (env : FontEnv) :
    (scriptTrace d env).filter isSave
      = [Event.save (OUT d) "PNG" ⟨"RGBA", SIZE, SIZE, renderOps env⟩] := by
  simp [scriptTrace, List.filter_append, filter_isSave_map_draw, isSave]

/-- The script performs exactly one `makedirs`, of the parent directory of
`OUT`. -/
theorem filter_isMakedirs_trace (d : List String) (env : FontEnv) :
    (scriptTrace d env).filter isMakedirs
      = [Event.makedirs (dirname (OUT d))] := by
  simp [scriptTrace, List.filter_append, filter_isMakedirs_map_draw, isMakedirs]

/-- `os.path.dirname(OUT)` is the `../assets` directory next to the
directory. -/
theorem dirname_OUT (d : List String) : dirname (OUT d) = d ++ ["..", "assets"] := by
  unfold dirname OUT
  rw [show d ++ ["..", "assets", "icon.png"] = (d ++ ["..", "assets"]) ++ ["icon.png"] by simp]
  simp

/-! ### Claim theorems -/

/-- C1: every successful run produces a single PNG-encoded save of an RGBA
image of exactly 1024x1024 pixels, written to `../assets/icon.png` relative to
the directory of the script itself, with a `makedirs` of the missing parent directory
occurring before the save. -/
theorem C1_single_png_artifact (scriptDir : List String) (env : FontEnv) :
    ∃ img : Image,
      (scriptTrace scriptDir env).filter isSave
          = [Event.save (scriptDir ++ ["..", "assets", "icon.png"]) "PNG" img]
        ∧ img.mode = "RGBA" ∧ img.width = 1024 ∧ img.height = 1024
        ∧ (scriptTrace scriptDir env).filter isMakedirs
            = [Event.makedirs (scriptDir ++ ["..", "assets"])]
        ∧ ∃ pre post, scriptTrace scriptDir env
            = pre ++ Event.makedirs (scriptDir ++ ["..", "assets"])
                :: Event.save (scriptDir ++ ["..", "assets", "icon.png"]) "PNG" img :: post := by
  refine ⟨⟨"RGBA", SIZE, SIZE, renderOps env⟩, ?_, rfl, rfl, rfl, ?_, ?_⟩
  · rw [filter_isSave_trace]
    rfl
  · rw [filter_isMakedirs_trace, dirname_OUT]
  · refine ⟨Event.newImage "RGBA" SIZE SIZE :: (renderOps env).map Event.draw,
      [Event.printLine ("Icon saved to " ++ String.intercalate "/" (OUT scriptDir)
        ++ " (1024x1024)")], ?_⟩
    rw [show scriptDir ++ ["..", "assets"] = dirname (OUT scriptDir) from (dirname_OUT scriptDir).symm]
    rfl

/-- C2: font resolution is total: the candidates are tried in order and the
first available one is used; when every candidate fails the built-in default
font is used, and the run still completes with a save of a valid 1024x1024
RGBA image. -/
theorem C2_font_fallback_total (scriptDir : List String) (env : FontEnv) :
    ((env.available sfPath = true → loadFont env = Font.truetype sfPath 220)
      ∧ (env.available sfPath = false → env.available helvPath = true →
          loadFont env = Font.truetype helvPath 220)
      ∧ (env.available sfPath = false → env.available helvPath = false →
          loadFont env = Font.dflt))
    ∧ ∃ img : Image,
        (scriptTrace scriptDir env).filter isSave = [Event.save (OUT scriptDir) "PNG" img]
          ∧ img.mode = "RGBA" ∧ img.width = 1024 ∧ img.height = 1024 := by
  refine ⟨⟨?_, ?_, ?_⟩, ⟨"RGBA", SIZE, SIZE, renderOps env⟩,
    filter_isSave_trace scriptDir env, rfl, rfl, rfl⟩
  · intro h1
    simp [loadFont, h1]
  · intro h1 h2
    simp [loadFont, h1, h2]
  · intro h1 h2
    simp [loadFont, h1, h2]

/-- A host on which no truetype font candidate is available; glyph metrics of
the default font are a fixed box with zero origin. -/
def envA : FontEnv := ⟨fun _ => false, fun _ => ⟨0, 0, 120, 150⟩⟩

theorem C2_witness :
    envA.available sfPath = false ∧ envA.available helvPath = false
      ∧ loadFont envA = Font.dflt
      ∧ ∃ img : Image,
          (scriptTrace [] envA).filter isSave = [Event.save (OUT []) "PNG" img]
            ∧ img.mode = "RGBA" ∧ img.width = 1024 ∧ img.height = 1024 := by
  obtain ⟨⟨-, -, h3⟩, h4⟩ := C2_font_fallback_total [] envA
  exact ⟨rfl, rfl, h3 rfl rfl, h4⟩

/-- C7: the image is fully composed in memory before any filesystem event
occurs, and the trace contains exactly one save call, carrying the complete
list of drawing operations. -/
theorem C7_compose_before_write (scriptDir : List String) (env : FontEnv) :
    ∃ img : Image,
      scriptTrace scriptDir env
          = (Event.newImage "RGBA" SIZE SIZE :: (renderOps env).map Event.draw)
            ++ [Event.makedirs (dirname (OUT scriptDir)),
                Event.save (OUT scriptDir) "PNG" img,
                Event.printLine ("Icon saved to " ++ String.intercalate "/" (OUT scriptDir)
                  ++ " (1024x1024)")]
        ∧ img.ops = renderOps env
        ∧ (∀ e ∈ Event.newImage "RGBA" SIZE SIZE :: (renderOps env).map Event.draw,
            isFs e = false)
        ∧ ((scriptTrace scriptDir env).filter isSave).length = 1 := by
  refine ⟨⟨"RGBA", SIZE, SIZE, renderOps env⟩, rfl, rfl, ?_, ?_⟩
  · intro e he
    rcases List.mem_cons.mp he with h | h
    · subst h
      rfl
    · exact isFs_map_draw _ e h
  · rw [filter_isSave_trace]
    rfl

/-- C6: the composed image depends on nothing but the constants and the
resolved font with its glyph metrics: two runs that resolve the same font with
the same measured bounding box produce identical traces (hence identical
output bytes). -/
theorem C6_deterministic (scriptDir : List String) (env1 env2 : FontEnv)
    (_hfont : loadFont env1 = loadFont env2)
    (hbb : env1.bboxOf (loadFont env1) = env2.bboxOf (loadFont env2)) :
    scriptTrace scriptDir env1 = scriptTrace scriptDir env2 := by
  have h : bboxB env1 = bboxB env2 := hbb
  simp [scriptTrace, renderOps, textOp, textPos, h]

/-- A second host, differing from `envA` in the metrics it would report for
truetype fonts, but resolving the same (default) font with the same metrics. -/
def envB : FontEnv :=
  ⟨fun _ => false, fun f =>
    match f with
    | Font.dflt => ⟨0, 0, 120, 150⟩
    | Font.truetype _ _ => ⟨1, 2, 3, 4⟩⟩

theorem C6_witness :
    scriptTrace [] envA = scriptTrace [] envB ∧ envA.bboxOf ≠ envB.bboxOf := by
  constructor
  · exact C6_deterministic [] envA envB rfl rfl
  · intro h
    have h2 := congrArg (fun f => (f (Font.truetype sfPath 220)).x0) h
    simp [envA, envB] at h2

/-- C3: for every dot of the dot list and every pair of glow radii drawn for
it, the computed glow alpha is monotonically non-increasing as the glow radius
increases away from the core radius, and every computed alpha lies in
`[0, 40]`. -/
theorem C3_glow_alpha_monotone (x y r : ℤ) (_hdot : (x, y, r) ∈ dots)
    (g1 g2 : ℤ) (h1 : g1 ∈ rangeDown3 (r + 30) r) (h2 : g2 ∈ rangeDown3 (r + 30) r)
    (hlt : g1 < g2) :
    glowAlpha r g2 ≤ glowAlpha r g1
      ∧ (0 ≤ glowAlpha r g1 ∧ glowAlpha r g1 ≤ 40)
      ∧ (0 ≤ glowAlpha r g2 ∧ glowAlpha r g2 ≤ 40) := by
  rw [glowAlpha_mem r g1 h1, glowAlpha_mem r g2 h2]
  obtain ⟨i1, hi1, he1⟩ := rangeDown3_structure r g1 h1
  obtain ⟨i2, hi2, he2⟩ := rangeDown3_structure r g2 h2
  rw [he1, he2, show r + 30 - 3 * (i1 : ℤ) - r = 30 - 3 * (i1 : ℤ) from by ring,
    show r + 30 - 3 * (i2 : ℤ) - r = 30 - 3 * (i2 : ℤ) from by ring]
  have hi21 : i2 < i1 := by omega
  have key : ∀ a : ℕ, a < 10 → ∀ b : ℕ, b < 10 → b < a →
      alphaTbl (30 - 3 * (b : ℤ)) ≤ alphaTbl (30 - 3 * (a : ℤ))
        ∧ (0 ≤ alphaTbl (30 - 3 * (a : ℤ)) ∧ alphaTbl (30 - 3 * (a : ℤ)) ≤ 40)
        ∧ (0 ≤ alphaTbl (30 - 3 * (b : ℤ)) ∧ alphaTbl (30 - 3 * (b : ℤ)) ≤ 40) := by
    decide
  exact key i1 hi1 i2 hi2 hi21

theorem C3_witness :
    ((300, 680, 70) : ℤ × ℤ × ℤ) ∈ dots
      ∧ (73 : ℤ) ∈ rangeDown3 (70 + 30) 70 ∧ (100 : ℤ) ∈ rangeDown3 (70 + 30) 70
      ∧ (73 : ℤ) < 100
      ∧ (glowAlpha 70 100 ≤ glowAlpha 70 73
          ∧ (0 ≤ glowAlpha 70 73 ∧ glowAlpha 70 73 ≤ 40)
          ∧ (0 ≤ glowAlpha 70 100 ∧ glowAlpha 70 100 ≤ 40)) :=
  ⟨by decide, by decide, by decide, by decide,
    C3_glow_alpha_monotone 300 680 70 (by decide) 73 100 (by decide) (by decide) (by decide)⟩

/-- C4 counterexample: the claim says the glow alpha is interpolated from
~40 down to 0 as the radius of the circle approaches the core radius, but for
the dot of radius 70 the drawn circle nearest the core (radius 73) has alpha
36 while the outermost drawn circle (radius 100) has alpha 0: the alpha
grows, not falls, as the radius approaches the core. -/
theorem C4_counterexample :
    (73 : ℤ) ∈ rangeDown3 (70 + 30) 70 ∧ (100 : ℤ) ∈ rangeDown3 (70 + 30) 70
      ∧ glowAlpha 70 73 = 36 ∧ glowAlpha 70 100 = 0
      ∧ ¬ (glowAlpha 70 73 ≤ glowAlpha 70 100) := by
  refine ⟨by decide, by decide, alpha_of_sub_3 70 73 (by decide),
    alpha_of_sub_30 70 100 (by decide), ?_⟩
  rw [alpha_of_sub_3 70 73 (by decide), alpha_of_sub_30 70 100 (by decide)]
  decide

/-- C4 (amended): for every dot the glow is rendered as concentric circles
with radii shrinking from `r + 30` down to (but not including) `r` in steps
of 3, and the alpha of each circle is `int(40 * (1 - (g - r) / 30))` computed
in binary64 float arithmetic: approximately linear, rising from 0 at radius
`r + 30` to 36 at radius `r + 3` (the values are 0, 3, 7, 12, 16, 20, 24, 28,
32, 36; float truncation yields 3 and 7 where exact-linear interpolation
would give 4 and 8), i.e. the alpha falls from ~40 near the core down to 0 as
the radius moves away from the core. -/
theorem C4_amended_glow (x y : ℤ) :
    glowOps x y 70 =
      [Op.ellipse (x - 100) (y - 100) (x + 100) (y + 100) ⟨99, 102, 241, 0⟩,
       Op.ellipse (x - 97) (y - 97) (x + 97) (y + 97) ⟨99, 102, 241, 3⟩,
       Op.ellipse (x - 94) (y - 94) (x + 94) (y + 94) ⟨99, 102, 241, 7⟩,
       Op.ellipse (x - 91) (y - 91) (x + 91) (y + 91) ⟨99, 102, 241, 12⟩,
       Op.ellipse (x - 88) (y - 88) (x + 88) (y + 88) ⟨99, 102, 241, 16⟩,
       Op.ellipse (x - 85) (y - 85) (x + 85) (y + 85) ⟨99, 102, 241, 20⟩,
       Op.ellipse (x - 82) (y - 82) (x + 82) (y + 82) ⟨99, 102, 241, 24⟩,
       Op.ellipse (x - 79) (y - 79) (x + 79) (y + 79) ⟨99, 102, 241, 28⟩,
       Op.ellipse (x - 76) (y - 76) (x + 76) (y + 76) ⟨99, 102, 241, 32⟩,
       Op.ellipse (x - 73) (y - 73) (x + 73) (y + 73) ⟨99, 102, 241, 36⟩]
    ∧ glowOps x y 55 =
      [Op.ellipse (x - 85) (y - 85) (x + 85) (y + 85) ⟨99, 102, 241, 0⟩,
       Op.ellipse (x - 82) (y - 82) (x + 82) (y + 82) ⟨99, 102, 241, 3⟩,
       Op.ellipse (x - 79) (y - 79) (x + 79) (y + 79) ⟨99, 102, 241, 7⟩,
       Op.ellipse (x - 76) (y - 76) (x + 76) (y + 76) ⟨99, 102, 241, 12⟩,
       Op.ellipse (x - 73) (y - 73) (x + 73) (y + 73) ⟨99, 102, 241, 16⟩,
       Op.ellipse (x - 70) (y - 70) (x + 70) (y + 70) ⟨99, 102, 241, 20⟩,
       Op.ellipse (x - 67) (y - 67) (x + 67) (y + 67) ⟨99, 102, 241, 24⟩,
       Op.ellipse (x - 64) (y - 64) (x + 64) (y + 64) ⟨99, 102, 241, 28⟩,
       Op.ellipse (x - 61) (y - 61) (x + 61) (y + 61) ⟨99, 102, 241, 32⟩,
       Op.ellipse (x - 58) (y - 58) (x + 58) (y + 58) ⟨99, 102, 241, 36⟩]
    ∧ glowOps x y 40 =
      [Op.ellipse (x - 70) (y - 70) (x + 70) (y + 70) ⟨99, 102, 241, 0⟩,
       Op.ellipse (x - 67) (y - 67) (x + 67) (y + 67) ⟨99, 102, 241, 3⟩,
       Op.ellipse (x - 64) (y - 64) (x + 64) (y + 64) ⟨99, 102, 241, 7⟩,
       Op.ellipse (x - 61) (y - 61) (x + 61) (y + 61) ⟨99, 102, 241, 12⟩,
       Op.ellipse (x - 58) (y - 58) (x + 58) (y + 58) ⟨99, 102, 241, 16⟩,
       Op.ellipse (x - 55) (y - 55) (x + 55) (y + 55) ⟨99, 102, 241, 20⟩,
       Op.ellipse (x - 52) (y - 52) (x + 52) (y + 52) ⟨99, 102, 241, 24⟩,
       Op.ellipse (x - 49) (y - 49) (x + 49) (y + 49) ⟨99, 102, 241, 28⟩,
       Op.ellipse (x - 46) (y - 46) (x + 46) (y + 46) ⟨99, 102, 241, 32⟩,
       Op.ellipse (x - 43) (y - 43) (x + 43) (y + 43) ⟨99, 102, 241, 36⟩]
      := by
  refine ⟨?_, ?_, ?_⟩
  · unfold glowOps
    rw [show rangeDown3 (70 + 30) 70 = [100, 97, 94, 91, 88, 85, 82, 79, 76, 73] from by decide]
    simp only [List.map_cons, List.map_nil]
    rw [alpha_of_sub_30 70 100 (by decide),
      alpha_of_sub_27 70 97 (by decide),
      alpha_of_sub_24 70 94 (by decide),
      alpha_of_sub_21 70 91 (by decide),
      alpha_of_sub_18 70 88 (by decide),
      alpha_of_sub_15 70 85 (by decide),
      alpha_of_sub_12 70 82 (by decide),
      alpha_of_sub_9 70 79 (by decide),
      alpha_of_sub_6 70 76 (by decide),
      alpha_of_sub_3 70 73 (by decide)]
  · unfold glowOps
    rw [show rangeDown3 (55 + 30) 55 = [85, 82, 79, 76, 73, 70, 67, 64, 61, 58] from by decide]
    simp only [List.map_cons, List.map_nil]
    rw [alpha_of_sub_30 55 85 (by decide),
      alpha_of_sub_27 55 82 (by decide),
      alpha_of_sub_24 55 79 (by decide),
      alpha_of_sub_21 55 76 (by decide),
      alpha_of_sub_18 55 73 (by decide),
      alpha_of_sub_15 55 70 (by decide),
      alpha_of_sub_12 55 67 (by decide),
      alpha_of_sub_9 55 64 (by decide),
      alpha_of_sub_6 55 61 (by decide),
      alpha_of_sub_3 55 58 (by decide)]
  · unfold glowOps
    rw [show rangeDown3 (40 + 30) 40 = [70, 67, 64, 61, 58, 55, 52, 49, 46, 43] from by decide]
    simp only [List.map_cons, List.map_nil]
    rw [alpha_of_sub_30 40 70 (by decide),
      alpha_of_sub_27 40 67 (by decide),
      alpha_of_sub_24 40 64 (by decide),
      alpha_of_sub_21 40 61 (by decide),
      alpha_of_sub_18 40 58 (by decide),
      alpha_of_sub_15 40 55 (by decide),
      alpha_of_sub_12 40 52 (by decide),
      alpha_of_sub_9 40 49 (by decide),
      alpha_of_sub_6 40 46 (by decide),
      alpha_of_sub_3 40 43 (by decide)]

/-- The computed glow alphas for the dot of radius 70, in drawing order
(outermost circle first). -/
theorem glow_map_70 :
    (rangeDown3 (70 + 30) 70).map (glowAlpha 70)
      = [0, 3, 7, 12, 16, 20, 24, 28, 32, 36] := by
  rw [show rangeDown3 (70 + 30) 70 = [100, 97, 94, 91, 88, 85, 82, 79, 76, 73] from by decide]
  simp only [List.map_cons, List.map_nil]
  rw [alpha_of_sub_30 70 100 (by decide),
    alpha_of_sub_27 70 97 (by decide),
    alpha_of_sub_24 70 94 (by decide),
    alpha_of_sub_21 70 91 (by decide),
    alpha_of_sub_18 70 88 (by decide),
    alpha_of_sub_15 70 85 (by decide),
    alpha_of_sub_12 70 82 (by decide),
    alpha_of_sub_9 70 79 (by decide),
    alpha_of_sub_6 70 76 (by decide),
    alpha_of_sub_3 70 73 (by decide)]

/-- The computed glow alphas for the dot of radius 55, in drawing order
(outermost circle first). -/
theorem glow_map_55 :
    (rangeDown3 (55 + 30) 55).map (glowAlpha 55)
      = [0, 3, 7, 12, 16, 20, 24, 28, 32, 36] := by
  rw [show rangeDown3 (55 + 30) 55 = [85, 82, 79, 76, 73, 70, 67, 64, 61, 58] from by decide]
  simp only [List.map_cons, List.map_nil]
  rw [alpha_of_sub_30 55 85 (by decide),
    alpha_of_sub_27 55 82 (by decide),
    alpha_of_sub_24 55 79 (by decide),
    alpha_of_sub_21 55 76 (by decide),
    alpha_of_sub_18 55 73 (by decide),
    alpha_of_sub_15 55 70 (by decide),
    alpha_of_sub_12 55 67 (by decide),
    alpha_of_sub_9 55 64 (by decide),
    alpha_of_sub_6 55 61 (by decide),
    alpha_of_sub_3 55 58 (by decide)]

/-- The computed glow alphas for the dot of radius 40, in drawing order
(outermost circle first). -/
theorem glow_map_40 :
    (rangeDown3 (40 + 30) 40).map (glowAlpha 40)
      = [0, 3, 7, 12, 16, 20, 24, 28, 32, 36] := by
  rw [show rangeDown3 (40 + 30) 40 = [70, 67, 64, 61, 58, 55, 52, 49, 46, 43] from by decide]
  simp only [List.map_cons, List.map_nil]
  rw [alpha_of_sub_30 40 70 (by decide),
    alpha_of_sub_27 40 67 (by decide),
    alpha_of_sub_24 40 64 (by decide),
    alpha_of_sub_21 40 61 (by decide),
    alpha_of_sub_18 40 58 (by decide),
    alpha_of_sub_15 40 55 (by decide),
    alpha_of_sub_12 40 52 (by decide),
    alpha_of_sub_9 40 49 (by decide),
    alpha_of_sub_6 40 46 (by decide),
    alpha_of_sub_3 40 43 (by decide)]

/-- C9 counterexample: the claim says the computed alphas are exactly the
integers 0, 4, 8, ..., 36, but binary64 float arithmetic computes
`int(40 * (1 - 27/30)) = int(3.999...) = 3` at glow radius `r + 27` (and 7 at
`r + 24`), so for the radius-70 dot the alpha at glow radius 97 is 3, not 4,
and the alpha list is not the arithmetic progression the claim states. -/
theorem C9_counterexample :
    (97 : ℤ) ∈ rangeDown3 (70 + 30) 70 ∧ glowAlpha 70 97 = 3
      ∧ glowAlpha 70 97 ≠ 4
      ∧ ¬ ((rangeDown3 (70 + 30) 70).map (glowAlpha 70)
            = [0, 4, 8, 12, 16, 20, 24, 28, 32, 36]) := by
  have hv := alpha_of_sub_27 70 97 (by decide)
  refine ⟨by decide, hv, by rw [hv]; decide, ?_⟩
  rw [glow_map_70]
  decide

/-- C9 (amended): for each of the three dot radii the glow loop draws exactly
10 concentric circles, with radii `r + 30, r + 27, ..., r + 3` (a circle at
exactly radius `r` is never drawn), the computed alphas are exactly
0, 3, 7, 12, 16, 20, 24, 28, 32, 36 (binary64 truncation gives 3 and 7 where
exact arithmetic would give 4 and 8), and the maximum alpha actually used is
36, strictly below the nominal base value 40. -/
theorem C9_amended_radii_and_alphas :
    (rangeDown3 (70 + 30) 70 = [100, 97, 94, 91, 88, 85, 82, 79, 76, 73]
      ∧ (70 : ℤ) ∉ rangeDown3 (70 + 30) 70
      ∧ (rangeDown3 (70 + 30) 70).map (glowAlpha 70)
          = [0, 3, 7, 12, 16, 20, 24, 28, 32, 36])
    ∧ (rangeDown3 (55 + 30) 55 = [85, 82, 79, 76, 73, 70, 67, 64, 61, 58]
      ∧ (55 : ℤ) ∉ rangeDown3 (55 + 30) 55
      ∧ (rangeDown3 (55 + 30) 55).map (glowAlpha 55)
          = [0, 3, 7, 12, 16, 20, 24, 28, 32, 36])
    ∧ (rangeDown3 (40 + 30) 40 = [70, 67, 64, 61, 58, 55, 52, 49, 46, 43]
      ∧ (40 : ℤ) ∉ rangeDown3 (40 + 30) 40
      ∧ (rangeDown3 (40 + 30) 40).map (glowAlpha 40)
          = [0, 3, 7, 12, 16, 20, 24, 28, 32, 36])
    ∧ ([(0 : ℤ), 3, 7, 12, 16, 20, 24, 28, 32, 36].foldr max 0 = 36
        ∧ (36 : ℤ) < 40) :=
  ⟨⟨by decide, by decide, glow_map_70⟩, ⟨by decide, by decide, glow_map_55⟩,
    ⟨by decide, by decide, glow_map_40⟩, by decide, by decide⟩

theorem isCoreEllipse_glow (x y r g : ℤ) (hg : g ∈ rangeDown3 (r + 30) r) :
    isCoreEllipse (Op.ellipse (x - g) (y - g) (x + g) (y + g)
      ⟨99, 102, 241, glowAlpha r g⟩) = false := by
  have hne : glowAlpha r g ≠ 255 := by
    rw [glowAlpha_mem r g hg]
    unfold alphaTbl
    split <;> omega
  simp only [isCoreEllipse, accent, beq_eq_false_iff_ne, ne_eq, Color.mk.injEq]
  omega

theorem filter_core_glowOps (x y r : ℤ) :
    (glowOps x y r).filter isCoreEllipse = [] := by
  rw [List.filter_eq_nil_iff]
  intro e he
  obtain ⟨g, hg, rfl⟩ := List.mem_map.mp he
  simp [isCoreEllipse_glow x y r g hg]

theorem filter_core_dotOps (x y r : ℤ) :
    (dotOps x y r).filter isCoreEllipse = [coreOp x y r] := by
  unfold dotOps
  rw [List.filter_append, filter_core_glowOps]
  simp [coreOp, highlightOp, isCoreEllipse, accent, accent_light]

/-- C5: in every run exactly three solid dot cores are drawn (the ellipse
calls filled with the fully opaque accent color), in order at centers
(300,680), (512,512), (700,360) with radii 70, 55, 40 — the radii strictly
decreasing along the list. -/
theorem C5_three_opaque_cores (env : FontEnv) :
    (renderOps env).filter isCoreEllipse
        = [Op.ellipse (300 - 70) (680 - 70) (300 + 70) (680 + 70) accent,
           Op.ellipse (512 - 55) (512 - 55) (512 + 55) (512 + 55) accent,
           Op.ellipse (700 - 40) (360 - 40) (700 + 40) (360 + 40) accent]
      ∧ accent.a = 255
      ∧ dots = [(300, 680, 70), (512, 512, 55), (700, 360, 40)]
      ∧ ((55 : ℤ) < 70 ∧ (40 : ℤ) < 55) := by
  have htext : isCoreEllipse (textOp env) = false := rfl
  refine ⟨?_, rfl, rfl, by decide, by decide⟩
  have hbg : backgroundOps.filter isCoreEllipse = [] := by decide
  have hline : lineOps.filter isCoreEllipse = [] := by decide
  have hchev : chevronOps.filter isCoreEllipse = [] := by decide
  have htl : ([textOp env]).filter isCoreEllipse = [] := by
    simp [List.filter_cons, htext]
  simp only [renderOps, dots, List.flatMap_cons, List.flatMap_nil, List.append_nil,
    List.filter_append, filter_core_dotOps, hbg, hline, hchev, htl]
  simp [coreOp]

/-- The horizontal coordinate where the rendered "B" glyph ends: the anchor
passed to `draw.text` plus the right edge of the measured bounding box (PIL
renders the glyph as the `(0, 0)`-measured box translated by the anchor). -/
def textRight (env : FontEnv) : ℤ := (textPos env).1 + (bboxB env).x1

/-- The vertical coordinate where the rendered "B" glyph ends. -/
def textBottom (env : FontEnv) : ℤ := (textPos env).2 + (bboxB env).y1

/-- A host whose resolved font measures the glyph "B" with a bounding box not
anchored at the origin (left bearing 5, top offset 48), as real fonts do. -/
def env8 : FontEnv := ⟨fun _ => false, fun _ => ⟨5, 48, 130, 160⟩⟩

/-- C8 counterexample: under a font whose measured bounding box does not start
at the origin, the rendered glyph extent does not end at the fixed margins:
with box (5, 48, 130, 160) the glyph ends at x = 869 and y = 932, not at
1024 - 160 = 864 and 1024 - 140 = 884. -/
theorem C8_counterexample :
    textRight env8 = 869 ∧ textBottom env8 = 932
      ∧ ¬ (textRight env8 = SIZE - 160 ∧ textBottom env8 = SIZE - 140) := by
  decide

/-- C8 (amended): the glyph anchor is computed from the measured bounding box
width and height as `(SIZE - bw - 160, SIZE - bh - 140)`, so the rendered
extent ends at the fixed margins offset by the origin of the measured box: exactly
`160` px from the right edge plus the left coordinate of the box, and `140` px
from the bottom edge plus the top coordinate of the box (hence exactly at the margins
precisely for fonts whose measured box starts at `(0, 0)`). -/
theorem C8_amended_alignment (env : FontEnv) :
    textPos env = ((SIZE - ((bboxB env).x1 - (bboxB env).x0)) - 160,
                   (SIZE - ((bboxB env).y1 - (bboxB env).y0)) - 140)
      ∧ textRight env = (SIZE - 160) + (bboxB env).x0
      ∧ textBottom env = (SIZE - 140) + (bboxB env).y0 := by
  refine ⟨rfl, ?_, ?_⟩
  · unfold textRight textPos
    ring
  · unfold textBottom textPos
    ring

/-- C10: for every dot with nonnegative radius, the inner highlight disk
(radius `int(r * 0.5)`, center shifted up by `int(r * 0.15)`) is geometrically
contained in the solid core disk of radius `r` centered at the dot, because
`int(r * 0.5) + int(r * 0.15) ≤ r`: every point of the highlight disk lies in
the core disk. -/
theorem C10_highlight_inside_core (x y r : ℤ) (hr : 0 ≤ r) (px py : ℚ)
    (hin : (px - (x : ℚ)) ^ 2 + (py - ((y : ℚ) - (highlightOff r : ℚ))) ^ 2
        ≤ ((highlight_r r : ℚ)) ^ 2) :
    highlight_r r + highlightOff r ≤ r
      ∧ (px - (x : ℚ)) ^ 2 + (py - (y : ℚ)) ^ 2 ≤ ((r : ℚ)) ^ 2 := by
  have hH0 : 0 ≤ highlight_r r := by
    rw [highlight_r_eq r hr]
    omega
  have hO0 : 0 ≤ highlightOff r := by
    rw [highlightOff_eq r hr]
    omega
  have hsum : highlight_r r + highlightOff r ≤ r := by
    rw [highlight_r_eq r hr, highlightOff_eq r hr]
    omega
  refine ⟨hsum, ?_⟩
  have hHq : (0 : ℚ) ≤ (highlight_r r : ℚ) := by exact_mod_cast hH0
  have hOq : (0 : ℚ) ≤ (highlightOff r : ℚ) := by exact_mod_cast hO0
  have hsq : (highlight_r r : ℚ) + (highlightOff r : ℚ) ≤ (r : ℚ) := by exact_mod_cast hsum
  set H : ℚ := (highlight_r r : ℚ)
  set O : ℚ := (highlightOff r : ℚ)
  set a : ℚ := px - (x : ℚ) with ha
  set c : ℚ := py - ((y : ℚ) - O) with hc
  have hgoal : py - (y : ℚ) = c - O := by
    rw [hc]
    ring
  rw [hgoal]
  have hcH : -H ≤ c := by
    nlinarith [hin, sq_nonneg a, sq_nonneg (c + H), sq_nonneg (c - H)]
  have h1 : 0 ≤ O * (H + c) := mul_nonneg hOq (by linarith)
  have h2 : (H + O) ^ 2 ≤ (r : ℚ) ^ 2 := by nlinarith
  nlinarith [hin, h1, h2]

theorem C10_witness :
    (0 : ℤ) ≤ 70
      ∧ (((300 : ℚ) - ((300 : ℤ) : ℚ)) ^ 2
          + ((670 : ℚ) - (((680 : ℤ) : ℚ) - (highlightOff 70 : ℚ))) ^ 2
          ≤ ((highlight_r 70 : ℚ)) ^ 2)
      ∧ (highlight_r 70 + highlightOff 70 ≤ 70
          ∧ (((300 : ℚ) - ((300 : ℤ) : ℚ)) ^ 2 + ((670 : ℚ) - ((680 : ℤ) : ℚ)) ^ 2
              ≤ (((70 : ℤ) : ℚ)) ^ 2)) := by
  have hhr : highlight_r 70 = 35 := by
    rw [highlight_r_eq 70 (by decide)]
    decide
  have hoff : highlightOff 70 = 10 := by
    rw [highlightOff_eq 70 (by decide)]
    decide
  have hin : ((300 : ℚ) - ((300 : ℤ) : ℚ)) ^ 2
      + ((670 : ℚ) - (((680 : ℤ) : ℚ) - (highlightOff 70 : ℚ))) ^ 2
      ≤ ((highlight_r 70 : ℚ)) ^ 2 := by
    rw [hhr, hoff]
    norm_num
  exact ⟨by decide, hin, C10_highlight_inside_core 300 680 70 (by decide) 300 670 hin⟩

end Breadcrumb
